import Mathlib

set_option maxHeartbeats 1000000

/-!
Shallow embedding of the vscode-debugger-mcp protocol server.

The embedding follows the repository sources:
 * types.ts        -- the protocol data model (MCPRequest, MCPResponse, MCPError,
                      MCPTool, DebugStatus, step/breakpoint parameter shapes);
 * debuggerTools.ts -- the DebuggerTools facade over the VS Code debug API;
 * mcpServer.ts    -- the MCPServer protocol router (request validation, the
                      tool registry, tools/call dispatch, error shaping);
 * sseServer.ts    -- the SSE transport (POST handling and listener broadcast).

External state (the VS Code workspace, the breakpoint store, the active debug
session and the debug adapter's replies to customRequest) is modelled by an
explicit World value threaded through the operations.  JavaScript exceptions
are modelled by Except String; undefined optional fields by Option.  Property
accesses on undefined arguments, which throw TypeError in JavaScript, are
modelled as the failing branch of the same call; NaN arithmetic arising from a
missing numeric argument is likewise modelled as a failed call (no theorem
below depends on those degenerate branches).  JSON serialization of a tool
result (JSON.stringify in the router) is modelled by carrying the structured
result value inside the single text content item of the response.
-/

/-- Request ids are opaque strings or numbers; null appears only in
transport-level parse-error replies (sseServer.ts). -/
inductive RequestId where
  | str (s : String)
  | num (n : Int)
  | null
deriving Repr, DecidableEq

/-- MCPError from types.ts. -/
structure MCPError where
  code : Int
  message : String
  data : Option String
deriving Repr, DecidableEq

/-- Arguments of a tools/call, covering every field any of the eight tools
reads (the source types BreakpointParams, EvaluateParams, StepParams and the
untyped configName access); a missing field is none. -/
structure ToolArgs where
  path : Option String
  line : Option Int
  condition : Option String
  expression : Option String
  frameId : Option Int
  configName : Option String
  type : Option String
  threadId : Option Int
deriving Repr, DecidableEq

/-- The all-undefined argument object. -/
def emptyArgs : ToolArgs :=
  { path := none, line := none, condition := none, expression := none,
    frameId := none, configName := none, type := none, threadId := none }

/-- The params object of a tools/call request: both fields may be absent. -/
structure CallParams where
  name : Option String
  arguments : Option ToolArgs
deriving Repr, DecidableEq

/-- Destructuring request.params when params itself is absent. -/
def emptyCallParams : CallParams := { name := none, arguments := none }

/-- MCPRequest from types.ts.  At runtime a missing jsonrpc or method field is
falsy exactly like the empty string, so both are modelled by "". -/
structure MCPRequest where
  jsonrpc : String
  id : RequestId
  method : String
  params : Option CallParams
deriving Repr, DecidableEq

/-- Input schema of a registry tool: the declared property names and the
declared required property names. -/
structure InputSchema where
  properties : List String
  required : List String
deriving Repr, DecidableEq

/-- MCPTool from types.ts. -/
structure MCPTool where
  name : String
  description : String
  inputSchema : InputSchema
deriving Repr, DecidableEq

/-- A debug adapter thread as reported by the threads request. -/
structure Thread where
  id : Int
  name : String
deriving Repr, DecidableEq

/-- The source attached to an adapter stack frame (both fields optional at
runtime). -/
structure RawSource where
  path : Option String
  name : String
deriving Repr, DecidableEq

/-- A stack frame as reported by the stackTrace request. -/
structure RawFrame where
  id : Int
  name : String
  source : Option RawSource
  line : Int
  column : Int
deriving Repr, DecidableEq

/-- The source field of a normalized stack frame. -/
structure FrameSource where
  path : Option String
  name : String
deriving Repr, DecidableEq

/-- A normalized stack frame as produced by getDebugStatus. -/
structure StackFrame where
  id : Int
  name : String
  source : Option FrameSource
  line : Int
  column : Int
deriving Repr, DecidableEq

/-- The active debug session header (vscode.DebugSession fields the code
reads). -/
structure Session where
  id : String
  name : String
  type : String
deriving Repr, DecidableEq

/-- A stored vscode.SourceBreakpoint: absolute file system path, 0-based
line, enabled flag and optional condition. -/
structure SourceBreakpoint where
  fsPath : String
  line0 : Int
  enabled : Bool
  condition : Option String
deriving Repr, DecidableEq

/-- A breakpoint entry of the DebugStatus snapshot (1-based line). -/
structure BreakpointInfo where
  path : String
  line : Int
  enabled : Bool
  condition : Option String
deriving Repr, DecidableEq

/-- DebugStatus from types.ts. -/
structure DebugStatus where
  isActive : Bool
  isPaused : Bool
  activeSession : Option Session
  threads : Option (List Thread)
  activeThreadId : Option Int
  stackFrames : Option (List StackFrame)
  breakpoints : List BreakpointInfo
deriving Repr, DecidableEq

/-- A launch configuration (the fields the code reads). -/
structure DebugConfiguration where
  name : String
  type : String
  request : String
deriving Repr, DecidableEq

/-- The debug-adapter requests stepDebugger can issue through
session.customRequest. -/
inductive AdapterReq where
  | threads
  | next
  | stepIn
  | stepOut
  | cont
  | pause
deriving Repr, DecidableEq

/-- The behavior of the external debug adapter behind session.customRequest:
each request either throws (error with a message) or returns its reply.  A
threads reply may lack the threads field (none); a stackTrace reply may lack
the stackFrames field (none); an evaluate reply may lack the result field. -/
structure Adapter where
  threadsResult : Except String (Option (List Thread))
  stackTraceResult : Int → Except String (Option (List RawFrame))
  evaluateResult : Option String → Option Int → Except String (Option String)
  stepResult : AdapterReq → Int → Except String Unit

/-- The external state DebuggerTools operates on: the workspace folder paths,
the vscode.debug.breakpoints store, the active debug session (if any) with
its adapter, and the launch configurations visible to the workspace. -/
structure World where
  workspaceFolders : List String
  breakpoints : List SourceBreakpoint
  activeDebugSession : Option Session
  adapter : Adapter
  launchConfigurations : List DebugConfiguration
  settingsConfigurations : List DebugConfiguration

/-- Prefix test on character lists (structural recursion so that concrete
instances compute). -/
def charPrefix : List Char → List Char → Bool
  | [], _ => true
  | _ :: _, [] => false
  | a :: as, b :: bs => if a = b then charPrefix as bs else false

/-- The JavaScript String.prototype.startsWith used by getRelativePath and
path.isAbsolute, modelled over the character list. -/
def strStartsWith (s pre : String) : Bool := charPrefix pre.data s.data

/-- Splitting a character list at a separator (structural recursion). -/
def splitOnChar (c : Char) : List Char → List (List Char)
  | [] => [[]]
  | x :: xs =>
    let r := splitOnChar c xs
    if x = c then [] :: r
    else
      match r with
      | [] => [[x]]
      | y :: ys => (x :: y) :: ys

/-- Node path.isAbsolute for posix paths. -/
def isAbsolute (p : String) : Bool := strStartsWith p "/"

/-- Node path.join of a folder and a relative segment, as used by
resolveFilePath (no dot-segment normalization is needed for these inputs). -/
def pathJoin (a b : String) : String := a ++ "/" ++ b

/-- Path components, empty segments dropped. -/
def splitPath (p : String) : List String :=
  ((splitOnChar '/' p.data).map (fun l => String.mk l)).filter (fun s => s ≠ "")

/-- Drop the longest common prefix of two component lists. -/
def dropCommon : List String → List String → List String × List String
  | a :: as, b :: bs => if a = b then dropCommon as bs else (a :: as, b :: bs)
  | as, bs => (as, bs)

/-- Node path.relative on absolute posix paths: strip the common component
prefix, go up once per remaining base component, then down the target. -/
def pathRelative (base target : String) : String :=
  let p := dropCommon (splitPath base) (splitPath target)
  String.intercalate "/" (p.1.map (fun _ => "..") ++ p.2)

/-- DebuggerTools.getRelativePath: the first workspace folder that is a
string prefix of the absolute path rewrites it to relative form; with no
folders or no prefix match the path is returned unchanged. -/
def DebuggerTools.getRelativePath (w : World) (absolutePath : String) : String :=
  if w.workspaceFolders.isEmpty then absolutePath
  else
    match w.workspaceFolders.find? (fun f => strStartsWith absolutePath f) with
    | some folder => pathRelative folder absolutePath
    | none => absolutePath

/-- DebuggerTools.resolveFilePath: absolute paths pass through, relative
paths join onto the first workspace folder, no folder is an error. -/
def DebuggerTools.resolveFilePath (w : World) (filePath : String) : Except String String :=
  if isAbsolute filePath then Except.ok filePath
  else
    match w.workspaceFolders with
    | [] => Except.error "No workspace folder open"
    | f :: _ => Except.ok (pathJoin f filePath)

/-- DebuggerTools.setBreakpoint: resolve the path, build a SourceBreakpoint
at the 0-based line and add it to the breakpoint store.  A missing path is
the TypeError thrown by path.isAbsolute(undefined); a missing line is the
NaN-degenerate branch, modelled as a failed call. -/
def DebuggerTools.setBreakpoint (w : World) (path? : Option String) (line? : Option Int)
    (condition? : Option String) : Except String (World × SourceBreakpoint) :=
  match path? with
  | none => Except.error "The path argument must be of type string"
  | some p =>
    match DebuggerTools.resolveFilePath w p with
    | Except.error e => Except.error e
    | Except.ok absolutePath =>
      match line? with
      | none => Except.error "The line argument must be a number"
      | some l =>
        let bp : SourceBreakpoint :=
          { fsPath := absolutePath, line0 := l - 1, enabled := true, condition := condition? }
        Except.ok ({ w with breakpoints := w.breakpoints ++ [bp] }, bp)

/-- DebuggerTools.removeBreakpoint: resolve the path and remove every stored
breakpoint with that fsPath and 0-based line.  With a missing line the
NaN comparison matches nothing, so the call succeeds without removing. -/
def DebuggerTools.removeBreakpoint (w : World) (path? : Option String) (line? : Option Int) :
    Except String World :=
  match path? with
  | none => Except.error "The path argument must be of type string"
  | some p =>
    match DebuggerTools.resolveFilePath w p with
    | Except.error e => Except.error e
    | Except.ok absolutePath =>
      let hit := fun (bp : SourceBreakpoint) =>
        bp.fsPath == absolutePath &&
          (match line? with | some l => bp.line0 == l - 1 | none => false)
      Except.ok { w with breakpoints := w.breakpoints.filter (fun bp => !(hit bp)) }

/-- DebuggerTools.evaluateExpression: requires an active session, then asks
the adapter; a falsy result field becomes the string undefined; an adapter
failure is rethrown with the Failed to evaluate prefix. -/
def DebuggerTools.evaluateExpression (w : World) (expression? : Option String)
    (frameId? : Option Int) : Except String String :=
  match w.activeDebugSession with
  | none => Except.error "No active debug session"
  | some _ =>
    match w.adapter.evaluateResult expression? frameId? with
    | Except.error e => Except.error ("Failed to evaluate expression: " ++ e)
    | Except.ok none => Except.ok "undefined"
    | Except.ok (some r) => Except.ok (if r = "" then "undefined" else r)

/-- DebuggerTools.listDebugConfigurations: empty without workspace folders,
otherwise the launch.json configurations followed by the settings-provided
ones. -/
def DebuggerTools.listDebugConfigurations (w : World) : List DebugConfiguration :=
  if w.workspaceFolders.isEmpty then []
  else w.launchConfigurations ++ w.settingsConfigurations

/-- DebuggerTools.startDebugging: with a truthy configName the configuration
must exist by name; otherwise the first available configuration is used and
having none is an error.  The actual session start is an external effect. -/
def DebuggerTools.startDebugging (w : World) (configName? : Option String) :
    Except String Unit :=
  let configurations := DebuggerTools.listDebugConfigurations w
  let cn := configName?.getD ""
  if cn ≠ "" then
    match configurations.find? (fun c => c.name == cn) with
    | none => Except.error ("Debug configuration '" ++ cn ++ "' not found")
    | some _ => Except.ok ()
  else
    if configurations.length > 0 then Except.ok ()
    else Except.error "No debug configurations found"

/-- DebuggerTools.stopDebugging: requires an active session; the actual stop
is an external effect. -/
def DebuggerTools.stopDebugging (w : World) : Except String Unit :=
  match w.activeDebugSession with
  | none => Except.error "No active debug session"
  | some _ => Except.ok ()

/-- The thread substitution of getDebugStatus: a missing threads field reads
as the empty list, and an empty list is replaced by the single synthetic
thread id 1 named main. -/
def normalizedThreads (tr : Option (List Thread)) : List Thread :=
  let threads := tr.getD []
  if threads.isEmpty then [{ id := 1, name := "main" }] else threads

/-- Frame normalization inside getDebugStatus: source paths are relativized
(a falsy empty path becomes undefined, mirroring the truthiness test). -/
def mapStackFrame (w : World) (f : RawFrame) : StackFrame :=
  { id := f.id, name := f.name,
    source := f.source.map (fun src =>
      { path := match src.path with
          | some p => if p = "" then none else some (DebuggerTools.getRelativePath w p)
          | none => none,
        name := src.name }),
    line := f.line, column := f.column }

/-- The breakpoint listing computed at the top of getDebugStatus: every
stored source breakpoint, its path relativized and its line 1-based. -/
def statusBreakpoints (w : World) : List BreakpointInfo :=
  w.breakpoints.map (fun bp =>
    { path := DebuggerTools.getRelativePath w bp.fsPath,
      line := bp.line0 + 1,
      enabled := bp.enabled,
      condition := bp.condition })

/-- DebuggerTools.getDebugStatus: recompute the snapshot from the current
world.  Breakpoints are always reported (relativized, 1-based).  With a
session, a thread-listing failure substitutes the synthetic thread and skips
the stack trace; zero reported threads also substitute the synthetic thread;
the stack trace is then attempted for the first thread and any failure or a
missing stackFrames field leaves stackFrames undefined.  isPaused is exactly
the definedness of stackFrames. -/
def DebuggerTools.getDebugStatus (w : World) : DebugStatus :=
  let breakpoints := statusBreakpoints w
  match w.activeDebugSession with
  | none =>
    { isActive := false, isPaused := false, activeSession := none,
      threads := none, activeThreadId := none, stackFrames := none,
      breakpoints := breakpoints }
  | some s =>
    match w.adapter.threadsResult with
    | Except.error _ =>
      { isActive := true, isPaused := false,
        activeSession := some { id := s.id, name := s.name, type := s.type },
        threads := some [{ id := 1, name := "main" }], activeThreadId := some 1,
        stackFrames := none, breakpoints := breakpoints }
    | Except.ok tr =>
      let threads := normalizedThreads tr
      match threads.head? with
      | none =>
        -- not reached: normalizedThreads never returns the empty list
        { isActive := true, isPaused := false,
          activeSession := some { id := s.id, name := s.name, type := s.type },
          threads := some threads, activeThreadId := none,
          stackFrames := none, breakpoints := breakpoints }
      | some t0 =>
        let stackFrames : Option (List StackFrame) :=
          match w.adapter.stackTraceResult t0.id with
          | Except.error _ => none
          | Except.ok none => none
          | Except.ok (some frames) => some (frames.map (mapStackFrame w))
        { isActive := true, isPaused := stackFrames.isSome,
          activeSession := some { id := s.id, name := s.name, type := s.type },
          threads := some threads, activeThreadId := some t0.id,
          stackFrames := stackFrames, breakpoints := breakpoints }

/-- The threadId resolution at the top of stepDebugger: an absent or falsy
(zero) threadId is resolved through the adapter's thread list, defaulting to
1 when the request fails or the list is empty; a truthy threadId is used as
given.  The second component records the adapter request issued. -/
def resolveThreadId (w : World) (threadId? : Option Int) : Int × List AdapterReq :=
  let needResolve := match threadId? with | none => true | some t => t == 0
  if needResolve then
    match w.adapter.threadsResult with
    | Except.ok (some (t :: _)) => (t.id, [AdapterReq.threads])
    | Except.ok _ => (1, [AdapterReq.threads])
    | Except.error _ => (1, [AdapterReq.threads])
  else (threadId?.getD 0, [])

/-- DebuggerTools.stepDebugger: requires an active session; the threadId is
resolved, then the step primitive named by type is issued, and an
unrecognized or absent type is an error.  The second component records the
adapter requests issued. -/
def DebuggerTools.stepDebugger (w : World) (type? : Option String) (threadId? : Option Int) :
    Except String Unit × List AdapterReq :=
  match w.activeDebugSession with
  | none => (Except.error "No active debug session", [])
  | some _ =>
    let resolved := resolveThreadId w threadId?
    let tid := resolved.1
    let log := resolved.2
    match type? with
    | some "stepOver" => (w.adapter.stepResult AdapterReq.next tid, log ++ [AdapterReq.next])
    | some "stepInto" => (w.adapter.stepResult AdapterReq.stepIn tid, log ++ [AdapterReq.stepIn])
    | some "stepOut" => (w.adapter.stepResult AdapterReq.stepOut tid, log ++ [AdapterReq.stepOut])
    | some "continue" => (w.adapter.stepResult AdapterReq.cont tid, log ++ [AdapterReq.cont])
    | some "pause" => (w.adapter.stepResult AdapterReq.pause tid, log ++ [AdapterReq.pause])
    | some t => (Except.error ("Unknown step type: " ++ t), log)
    | none => (Except.error ("Unknown step type: undefined"), log)

/-- The fixed JSON-RPC-derived error codes (MCPErrorCode in types.ts). -/
def MCPErrorCode.ParseError : Int := -32700

/-- InvalidRequest code. -/
def MCPErrorCode.InvalidRequest : Int := -32600

/-- MethodNotFound code. -/
def MCPErrorCode.MethodNotFound : Int := -32601

/-- InvalidParams code. -/
def MCPErrorCode.InvalidParams : Int := -32602

/-- InternalError code. -/
def MCPErrorCode.InternalError : Int := -32603

/-- ServerError code (declared in types.ts, never emitted). -/
def MCPErrorCode.ServerError : Int := -32000

/-- A tool-level result value before JSON serialization: the shaped
set_breakpoint result, the success flag object, an evaluation string, a
configuration list or a status snapshot. -/
inductive ToolResult where
  | breakpointInfo (path : Option String) (line : Int) (enabled : Bool) (condition : Option String)
  | success
  | text (s : String)
  | configs (cs : List DebugConfiguration)
  | status (st : DebugStatus)
deriving Repr, DecidableEq

/-- A response result value: the initialize metadata, the tools/list
catalog, or a tools/call content envelope carrying one text item. -/
inductive ResValue where
  | initializeResult (protocolVersion : String) (serverName : String) (serverVersion : String)
  | toolsList (tools : List MCPTool)
  | content (r : ToolResult)
deriving Repr, DecidableEq

/-- MCPResponse from types.ts: both result and error are optional in the
type; the router is what guarantees exactly one of them is set. -/
structure MCPResponse where
  jsonrpc : String
  id : RequestId
  result : Option ResValue
  error : Option MCPError
deriving Repr, DecidableEq

/-- The DebuggerTools operations the router can invoke (for observing which
facade calls a request triggers). -/
inductive FacadeCall where
  | setBreakpoint
  | removeBreakpoint
  | evaluateExpression
  | listDebugConfigurations
  | startDebugging
  | stopDebugging
  | getDebugStatus
  | stepDebugger
deriving Repr, DecidableEq

/-- MCPServer.createErrorResponse. -/
def MCPServer.createErrorResponse (id : RequestId) (code : Int) (message : String) : MCPResponse :=
  { jsonrpc := "2.0", id := id, result := none,
    error := some { code := code, message := message, data := none } }

/-- The successful tools/call envelope: result.content holds one text item
whose text is the serialized tool result. -/
def MCPServer.okContentResponse (id : RequestId) (r : ToolResult) : MCPResponse :=
  { jsonrpc := "2.0", id := id, result := some (ResValue.content r), error := none }

/-- The static tool registry (MCPServer.tools): name, description and the
input schema's property and required-field lists. -/
def MCPServer.tools : List MCPTool :=
  [ { name := "set_breakpoint",
      description := "Set a breakpoint at a specific line in a file",
      inputSchema := { properties := ["path", "line", "condition"], required := ["path", "line"] } },
    { name := "remove_breakpoint",
      description := "Remove a breakpoint at a specific line in a file",
      inputSchema := { properties := ["path", "line"], required := ["path", "line"] } },
    { name := "evaluate_expression",
      description := "Evaluate an expression in the current debug context",
      inputSchema := { properties := ["expression", "frameId"], required := ["expression"] } },
    { name := "list_debug_configurations",
      description := "List all available debug configurations from launch.json",
      inputSchema := { properties := [], required := [] } },
    { name := "start_debugging",
      description := "Start a debugging session",
      inputSchema := { properties := ["configName"], required := [] } },
    { name := "stop_debugging",
      description := "Stop the current debugging session",
      inputSchema := { properties := [], required := [] } },
    { name := "get_debug_status",
      description := "Get the current debug status including active session, threads, stack frames, and breakpoints",
      inputSchema := { properties := [], required := [] } },
    { name := "step_debugger",
      description := "Control debugger stepping (step over, step into, step out, continue, pause)",
      inputSchema := { properties := ["type", "threadId"], required := ["type"] } } ]

/-- MCPServer.handleInitialize: static server metadata. -/
def MCPServer.handleInitialize (req : MCPRequest) : MCPResponse :=
  { jsonrpc := "2.0", id := req.id,
    result := some (ResValue.initializeResult "2024-11-05" "vscode-debugger-mcp" "0.0.1"),
    error := none }

/-- MCPServer.handleToolsList: the full registry. -/
def MCPServer.handleToolsList (req : MCPRequest) : MCPResponse :=
  { jsonrpc := "2.0", id := req.id,
    result := some (ResValue.toolsList MCPServer.tools),
    error := none }

/-- MCPServer.handleToolsCall: require a truthy tool name that is in the
registry, then dispatch on the name; a DebuggerTools failure becomes an
InternalError response with the message preserved; the unreachable switch
default reports the tool as not implemented.  The third component lists the
DebuggerTools calls made. -/
def MCPServer.handleToolsCall (req : MCPRequest) (w : World) :
    MCPResponse × World × List FacadeCall :=
  let p := req.params.getD emptyCallParams
  match p.name with
  | none =>
    (MCPServer.createErrorResponse req.id MCPErrorCode.InvalidParams "Tool name is required", w, [])
  | some n =>
    if n = "" then
      (MCPServer.createErrorResponse req.id MCPErrorCode.InvalidParams "Tool name is required", w, [])
    else if (MCPServer.tools.find? (fun t => t.name == n)).isNone then
      (MCPServer.createErrorResponse req.id MCPErrorCode.InvalidParams
        ("Tool '" ++ n ++ "' not found"), w, [])
    else
      let a := p.arguments.getD emptyArgs
      match n with
      | "set_breakpoint" =>
        (match DebuggerTools.setBreakpoint w a.path a.line a.condition with
         | Except.error e =>
           (MCPServer.createErrorResponse req.id MCPErrorCode.InternalError e, w,
            [FacadeCall.setBreakpoint])
         | Except.ok (w1, bp) =>
           -- the shaped result echoes the path as provided by the caller
           (MCPServer.okContentResponse req.id
              (ToolResult.breakpointInfo a.path (bp.line0 + 1) bp.enabled bp.condition), w1,
            [FacadeCall.setBreakpoint]))
      | "remove_breakpoint" =>
        (match DebuggerTools.removeBreakpoint w a.path a.line with
         | Except.error e =>
           (MCPServer.createErrorResponse req.id MCPErrorCode.InternalError e, w,
            [FacadeCall.removeBreakpoint])
         | Except.ok w1 =>
           (MCPServer.okContentResponse req.id ToolResult.success, w1,
            [FacadeCall.removeBreakpoint]))
      | "evaluate_expression" =>
        (match DebuggerTools.evaluateExpression w a.expression a.frameId with
         | Except.error e =>
           (MCPServer.createErrorResponse req.id MCPErrorCode.InternalError e, w,
            [FacadeCall.evaluateExpression])
         | Except.ok r =>
           (MCPServer.okContentResponse req.id (ToolResult.text r), w,
            [FacadeCall.evaluateExpression]))
      | "list_debug_configurations" =>
        (MCPServer.okContentResponse req.id
           (ToolResult.configs (DebuggerTools.listDebugConfigurations w)), w,
         [FacadeCall.listDebugConfigurations])
      | "start_debugging" =>
        (match DebuggerTools.startDebugging w (p.arguments.bind (fun x => x.configName)) with
         | Except.error e =>
           (MCPServer.createErrorResponse req.id MCPErrorCode.InternalError e, w,
            [FacadeCall.startDebugging])
         | Except.ok _ =>
           (MCPServer.okContentResponse req.id ToolResult.success, w,
            [FacadeCall.startDebugging]))
      | "stop_debugging" =>
        (match DebuggerTools.stopDebugging w with
         | Except.error e =>
           (MCPServer.createErrorResponse req.id MCPErrorCode.InternalError e, w,
            [FacadeCall.stopDebugging])
         | Except.ok _ =>
           (MCPServer.okContentResponse req.id ToolResult.success, w,
            [FacadeCall.stopDebugging]))
      | "get_debug_status" =>
        (MCPServer.okContentResponse req.id
           (ToolResult.status (DebuggerTools.getDebugStatus w)), w,
         [FacadeCall.getDebugStatus])
      | "step_debugger" =>
        (match (DebuggerTools.stepDebugger w a.type a.threadId).1 with
         | Except.error e =>
           (MCPServer.createErrorResponse req.id MCPErrorCode.InternalError e, w,
            [FacadeCall.stepDebugger])
         | Except.ok _ =>
           (MCPServer.okContentResponse req.id ToolResult.success, w,
            [FacadeCall.stepDebugger]))
      | _ =>
        (MCPServer.createErrorResponse req.id MCPErrorCode.MethodNotFound
          ("Tool '" ++ n ++ "' not implemented"), w, [])

/-- MCPServer.handleRequest: validate the version literal and the method,
then route; unknown top-level methods are MethodNotFound.  The outer
try/catch of the source can only rethrow handler results and is represented
by the explicit error responses. -/
def MCPServer.handleRequest (req : MCPRequest) (w : World) :
    MCPResponse × World × List FacadeCall :=
  if req.jsonrpc ≠ "2.0" then
    (MCPServer.createErrorResponse req.id MCPErrorCode.InvalidRequest "Invalid JSON-RPC version",
     w, [])
  else if req.method = "" then
    (MCPServer.createErrorResponse req.id MCPErrorCode.InvalidRequest "Method is required", w, [])
  else
    match req.method with
    | "initialize" => (MCPServer.handleInitialize req, w, [])
    | "tools/list" => (MCPServer.handleToolsList req, w, [])
    | "tools/call" => MCPServer.handleToolsCall req w
    | m =>
      (MCPServer.createErrorResponse req.id MCPErrorCode.MethodNotFound
        ("Method '" ++ m ++ "' not found"), w, [])

/-- An open SSE listener channel: its identity and whether a write to it
currently fails (the channel has gone bad). -/
structure Listener where
  id : Nat
  writeFails : Bool
deriving Repr, DecidableEq

/-- One iteration step of SSEServer.broadcast over the client set: try the
write; on failure catch per-listener and delete the client from the set,
otherwise record the delivery. -/
def SSEServer.broadcastStep (data : MCPResponse)
    (acc : List Listener × List (Nat × MCPResponse)) (c : Listener) :
    List Listener × List (Nat × MCPResponse) :=
  if c.writeFails then (acc.1.filter (fun x => x != c), acc.2)
  else (acc.1, acc.2 ++ [(c.id, data)])

/-- SSEServer.broadcast: iterate over the current clients, writing the same
serialized data to each; the first component is the client set afterwards,
the second the successful deliveries in order. -/
def SSEServer.broadcast (data : MCPResponse) (clients : List Listener) :
    List Listener × List (Nat × MCPResponse) :=
  clients.foldl (SSEServer.broadcastStep data) (clients, [])

/-- What a POST /sse produces: the HTTP status and JSON reply to the
submitter, the listener set afterwards, and the broadcast deliveries. -/
structure PostOutcome where
  httpStatus : Nat
  reply : MCPResponse
  clientsAfter : List Listener
  delivered : List (Nat × MCPResponse)
deriving Repr

/-- The POST /sse handler: a body that fails to parse yields the 400
ParseError reply with null id and touches no listener; otherwise the parsed
request is routed, the response broadcast to every listener, and the same
response returned as the HTTP reply. -/
def SSEServer.handlePost (body : Except String MCPRequest) (w : World)
    (clients : List Listener) : PostOutcome × World :=
  match body with
  | Except.error _ =>
    ({ httpStatus := 400,
       reply := { jsonrpc := "2.0", id := RequestId.null, result := none,
                  error := some { code := MCPErrorCode.ParseError, message := "Parse error",
                                  data := none } },
       clientsAfter := clients, delivered := [] }, w)
  | Except.ok req =>
    let rw := MCPServer.handleRequest req w
    let b := SSEServer.broadcast rw.1 clients
    ({ httpStatus := 200, reply := rw.1, clientsAfter := b.1, delivered := b.2 }, rw.2.1)

/-- A tools/call request with the supported version literal. -/
def mkToolCall (rid : RequestId) (n : String) (a : ToolArgs) : MCPRequest :=
  { jsonrpc := "2.0", id := rid, method := "tools/call",
    params := some { name := some n, arguments := some a } }

/-- Breakpoint arguments. -/
def bpArgs (p : String) (l : Int) : ToolArgs :=
  { emptyArgs with path := some p, line := some l }

/-- An adapter stub: thread listing throws not supported, stack traces
throw, evaluation succeeds, stepping succeeds. -/
def stubAdapter : Adapter :=
  { threadsResult := Except.error "not supported",
    stackTraceResult := fun _ => Except.error "No stack trace available",
    evaluateResult := fun _ _ => Except.ok (some "42"),
    stepResult := fun _ _ => Except.ok () }

/-- A session stub. -/
def stubSession : Session := { id := "1", name := "Launch", type := "node" }

/-- A world with one workspace folder and no active session. -/
def idleWorld : World :=
  { workspaceFolders := ["/ws"], breakpoints := [], activeDebugSession := none,
    adapter := stubAdapter, launchConfigurations := [], settingsConfigurations := [] }

/-- A world with one workspace folder and an active session whose adapter
does not support thread listing. -/
def activeWorld : World :=
  { workspaceFolders := ["/ws"], breakpoints := [], activeDebugSession := some stubSession,
    adapter := stubAdapter, launchConfigurations := [], settingsConfigurations := [] }

/-- Helper: the synthetic-thread substitution never leaves the thread list
empty. -/
lemma normalizedThreads_ne_nil (tr : Option (List Thread)) : normalizedThreads tr ≠ [] := by
  simp only [normalizedThreads]
  split
  · simp
  · simp_all

/-- The thread id getDebugStatus takes the stack trace for: the id of the
first thread after substitution. -/
def activeThreadIdOf (tr : Option (List Thread)) : Int :=
  ((normalizedThreads tr).headD { id := 1, name := "main" }).id

/-- Helper: the breakpoints field of a status snapshot is the relativized
1-based image of the stored breakpoints, in every branch. -/
lemma getDebugStatus_breakpoints (w : World) :
    (DebuggerTools.getDebugStatus w).breakpoints = statusBreakpoints w := by
  unfold DebuggerTools.getDebugStatus
  split
  · rfl
  · split
    · rfl
    · dsimp only
      split
      · rfl
      · split <;> rfl

/-- Helper: the snapshot with no active session. -/
lemma getDebugStatus_noSession (w : World) (hs : w.activeDebugSession = none) :
    DebuggerTools.getDebugStatus w =
      { isActive := false, isPaused := false, activeSession := none, threads := none,
        activeThreadId := none, stackFrames := none, breakpoints := statusBreakpoints w } := by
  simp [DebuggerTools.getDebugStatus, hs]

/-- Helper: the snapshot when the thread listing throws. -/
lemma getDebugStatus_threadsError (w : World) (s : Session) (e : String)
    (hs : w.activeDebugSession = some s) (ht : w.adapter.threadsResult = Except.error e) :
    DebuggerTools.getDebugStatus w =
      { isActive := true, isPaused := false,
        activeSession := some { id := s.id, name := s.name, type := s.type },
        threads := some [{ id := 1, name := "main" }], activeThreadId := some 1,
        stackFrames := none, breakpoints := statusBreakpoints w } := by
  simp [DebuggerTools.getDebugStatus, hs, ht]

/-- Helper: the snapshot when the thread listing returns, after the
synthetic-thread substitution. -/
lemma getDebugStatus_threadsOk (w : World) (s : Session) (tr : Option (List Thread))
    (hs : w.activeDebugSession = some s) (ht : w.adapter.threadsResult = Except.ok tr) :
    DebuggerTools.getDebugStatus w =
      { isActive := true,
        isPaused := (match w.adapter.stackTraceResult (activeThreadIdOf tr) with
          | Except.error _ => (none : Option (List StackFrame))
          | Except.ok none => none
          | Except.ok (some frames) => some (frames.map (mapStackFrame w))).isSome,
        activeSession := some { id := s.id, name := s.name, type := s.type },
        threads := some (normalizedThreads tr), activeThreadId := some (activeThreadIdOf tr),
        stackFrames := match w.adapter.stackTraceResult (activeThreadIdOf tr) with
          | Except.error _ => none
          | Except.ok none => none
          | Except.ok (some frames) => some (frames.map (mapStackFrame w)),
        breakpoints := statusBreakpoints w } := by
  have hh : (normalizedThreads tr).head? =
      some ((normalizedThreads tr).headD { id := 1, name := "main" }) := by
    cases hcase : normalizedThreads tr with
    | nil => exact absurd hcase (normalizedThreads_ne_nil tr)
    | cons a l => simp [hcase]
  unfold DebuggerTools.getDebugStatus
  rw [hs, ht]
  dsimp only
  rw [hh]
  rfl

/-- Helper: getRelativePath reads only the workspace folders of the world. -/
lemma getRelativePath_folders (w v : World) (h : w.workspaceFolders = v.workspaceFolders)
    (p : String) : DebuggerTools.getRelativePath w p = DebuggerTools.getRelativePath v p := by
  unfold DebuggerTools.getRelativePath
  rw [h]

/-- Helper: a get_debug_status call is always answered with the snapshot,
never with an error. -/
lemma statusCall_ok (w : World) (rid : RequestId) :
    (MCPServer.handleRequest (mkToolCall rid "get_debug_status" emptyArgs) w).1 =
      MCPServer.okContentResponse rid (ToolResult.status (DebuggerTools.getDebugStatus w)) := by
  rfl

/-- Helper: a name the registry lookup finds is one of the eight tool
names. -/
lemma toolName_of_found (n : String)
    (h : (MCPServer.tools.find? (fun t => t.name == n)).isSome) :
    n = "set_breakpoint" ∨ n = "remove_breakpoint" ∨ n = "evaluate_expression" ∨
    n = "list_debug_configurations" ∨ n = "start_debugging" ∨ n = "stop_debugging" ∨
    n = "get_debug_status" ∨ n = "step_debugger" := by
  rw [List.find?_isSome] at h
  obtain ⟨t, ht, hp⟩ := h
  simp only [MCPServer.tools, List.mem_cons, List.not_mem_nil, or_false] at ht
  rcases ht with rfl | rfl | rfl | rfl | rfl | rfl | rfl | rfl <;> simp_all

/-- C3: a request whose version field is not the supported literal is
answered with the InvalidRequest error and triggers no facade call, so it is
rejected before dispatch. -/
theorem C3_version_mismatch_rejected (req : MCPRequest) (w : World)
    (h : req.jsonrpc ≠ "2.0") :
    (MCPServer.handleRequest req w).1 =
      MCPServer.createErrorResponse req.id MCPErrorCode.InvalidRequest "Invalid JSON-RPC version"
    ∧ (MCPServer.handleRequest req w).1.error.map (fun e => e.code) = some (-32600)
    ∧ (MCPServer.handleRequest req w).2.2 = [] := by
  simp [MCPServer.handleRequest, h, MCPServer.createErrorResponse, MCPErrorCode.InvalidRequest]

/-- A request carrying an unsupported version literal. -/
def mismatchedRequest : MCPRequest :=
  { jsonrpc := "1.0", id := RequestId.num 7, method := "tools/list", params := none }

/-- C3 witness at a concrete mismatching request. -/
theorem C3_version_mismatch_rejected_witness :
    (MCPServer.handleRequest mismatchedRequest idleWorld).1 =
      MCPServer.createErrorResponse (RequestId.num 7) MCPErrorCode.InvalidRequest
        "Invalid JSON-RPC version"
    ∧ (MCPServer.handleRequest mismatchedRequest idleWorld).1.error.map (fun e => e.code) =
        some (-32600)
    ∧ (MCPServer.handleRequest mismatchedRequest idleWorld).2.2 = [] :=
  C3_version_mismatch_rejected mismatchedRequest idleWorld (by decide)

/-- C4: with an active session, a thread-listing failure or an empty thread
list yields the synthetic thread, active, with the capability gap never
surfacing as an error response; in the failure case isPaused is false. -/
theorem C4_synthetic_thread_on_capability_gap (w : World) (s : Session)
    (hs : w.activeDebugSession = some s)
    (hgap : (∃ e, w.adapter.threadsResult = Except.error e) ∨
            w.adapter.threadsResult = Except.ok none ∨
            w.adapter.threadsResult = Except.ok (some [])) :
    (DebuggerTools.getDebugStatus w).isActive = true
    ∧ (DebuggerTools.getDebugStatus w).threads = some [{ id := 1, name := "main" }]
    ∧ (DebuggerTools.getDebugStatus w).activeThreadId = some 1
    ∧ ((∃ e, w.adapter.threadsResult = Except.error e) →
        (DebuggerTools.getDebugStatus w).isPaused = false)
    ∧ ∀ rid, (MCPServer.handleRequest (mkToolCall rid "get_debug_status" emptyArgs) w).1 =
        MCPServer.okContentResponse rid (ToolResult.status (DebuggerTools.getDebugStatus w)) := by
  have hfields :
      (DebuggerTools.getDebugStatus w).isActive = true
      ∧ (DebuggerTools.getDebugStatus w).threads = some [{ id := 1, name := "main" }]
      ∧ (DebuggerTools.getDebugStatus w).activeThreadId = some 1
      ∧ ((∃ e, w.adapter.threadsResult = Except.error e) →
          (DebuggerTools.getDebugStatus w).isPaused = false) := by
    rcases hgap with ⟨e, he⟩ | he | he
    · rw [getDebugStatus_threadsError w s e hs he]
      exact ⟨rfl, rfl, rfl, fun _ => rfl⟩
    · rw [getDebugStatus_threadsOk w s none hs he]
      refine ⟨rfl, rfl, rfl, ?_⟩
      rintro ⟨e, he2⟩
      rw [he] at he2
      exact absurd he2 (by simp)
    · rw [getDebugStatus_threadsOk w s (some []) hs he]
      refine ⟨rfl, rfl, rfl, ?_⟩
      rintro ⟨e, he2⟩
      rw [he] at he2
      exact absurd he2 (by simp)
  exact ⟨hfields.1, hfields.2.1, hfields.2.2.1, hfields.2.2.2, fun rid => statusCall_ok w rid⟩

/-- C4 witness: the not-supported stub adapter with an active session. -/
theorem C4_synthetic_thread_on_capability_gap_witness :
    (DebuggerTools.getDebugStatus activeWorld).isActive = true
    ∧ (DebuggerTools.getDebugStatus activeWorld).threads = some [{ id := 1, name := "main" }]
    ∧ (DebuggerTools.getDebugStatus activeWorld).activeThreadId = some 1
    ∧ ((∃ e, activeWorld.adapter.threadsResult = Except.error e) →
        (DebuggerTools.getDebugStatus activeWorld).isPaused = false)
    ∧ ∀ rid, (MCPServer.handleRequest (mkToolCall rid "get_debug_status" emptyArgs) activeWorld).1 =
        MCPServer.okContentResponse rid (ToolResult.status (DebuggerTools.getDebugStatus activeWorld)) :=
  C4_synthetic_thread_on_capability_gap activeWorld stubSession rfl
    (Or.inl ⟨"not supported", rfl⟩)

/-- C5: isPaused is exactly the obtainability of a stack trace for the
active thread (active session, thread listing returned, stackTrace returned
a frame list); failures never turn the status call into an error. -/
theorem C5_isPaused_iff_stacktrace (w : World) :
    ((DebuggerTools.getDebugStatus w).isPaused = true ↔
      ∃ s tr frames, w.activeDebugSession = some s ∧
        w.adapter.threadsResult = Except.ok tr ∧
        w.adapter.stackTraceResult (activeThreadIdOf tr) = Except.ok (some frames))
    ∧ ∀ rid, (MCPServer.handleRequest (mkToolCall rid "get_debug_status" emptyArgs) w).1 =
        MCPServer.okContentResponse rid (ToolResult.status (DebuggerTools.getDebugStatus w)) := by
  refine ⟨?_, fun rid => statusCall_ok w rid⟩
  cases hs : w.activeDebugSession with
  | none =>
    rw [getDebugStatus_noSession w hs]
    simp [hs]
  | some s =>
    cases ht : w.adapter.threadsResult with
    | error e =>
      rw [getDebugStatus_threadsError w s e hs ht]
      simp [hs, ht]
    | ok tr =>
      rw [getDebugStatus_threadsOk w s tr hs ht]
      cases hst : w.adapter.stackTraceResult (activeThreadIdOf tr) with
      | error e => simp [hs, ht, hst]
      | ok o =>
        cases o with
        | none => simp [hs, ht, hst]
        | some frames =>
          simp only [hst, Option.isSome_some, true_iff]
          exact ⟨s, tr, frames, rfl, rfl, hst⟩

/-- Helper: whatever the thread resolution does, the only adapter request it
can issue is the threads listing. -/
lemma resolveThreadId_log (w : World) (tid? : Option Int) :
    ∀ r ∈ (resolveThreadId w tid?).2, r = AdapterReq.threads := by
  unfold resolveThreadId
  dsimp only
  split
  · split <;> simp
  · simp

/-- Helper: with an active session, a step type outside the recognized five
produces the Unknown step type error, after at most the thread listing. -/
lemma stepDebugger_unknown (w : World) (s : Session) (t : String) (tid? : Option Int)
    (hs : w.activeDebugSession = some s)
    (ht : t ∉ (["stepOver", "stepInto", "stepOut", "continue", "pause"] : List String)) :
    DebuggerTools.stepDebugger w (some t) tid? =
      (Except.error ("Unknown step type: " ++ t), (resolveThreadId w tid?).2) := by
  simp only [List.mem_cons, List.not_mem_nil, or_false, not_or] at ht
  obtain ⟨h1, h2, h3, h4, h5⟩ := ht
  unfold DebuggerTools.stepDebugger
  rw [hs]
  dsimp only
  split <;> simp_all

/-- Helper: the router's outcome for a step_debugger call follows the
stepDebugger outcome. -/
lemma stepCall_response (w : World) (rid : RequestId) (a : ToolArgs) :
    MCPServer.handleRequest (mkToolCall rid "step_debugger" a) w =
      (match (DebuggerTools.stepDebugger w a.type a.threadId).1 with
       | Except.error e =>
         (MCPServer.createErrorResponse rid MCPErrorCode.InternalError e, w,
          [FacadeCall.stepDebugger])
       | Except.ok _ =>
         (MCPServer.okContentResponse rid ToolResult.success, w,
          [FacadeCall.stepDebugger])) := by
  rfl

/-- C6: a step_debugger call with an active session and an unrecognized type
issues no step primitive; the tool fails with the Unknown step type message
and the router reports it as an InternalError response with the message
preserved. -/
theorem C6_unknown_step_type_rejected (w : World) (s : Session) (t : String)
    (tid? : Option Int) (rid : RequestId)
    (hs : w.activeDebugSession = some s)
    (ht : t ∉ (["stepOver", "stepInto", "stepOut", "continue", "pause"] : List String)) :
    (DebuggerTools.stepDebugger w (some t) tid?).1 =
      Except.error ("Unknown step type: " ++ t)
    ∧ (∀ r ∈ (DebuggerTools.stepDebugger w (some t) tid?).2, r = AdapterReq.threads)
    ∧ (MCPServer.handleRequest
         (mkToolCall rid "step_debugger" { emptyArgs with type := some t, threadId := tid? }) w).1 =
        MCPServer.createErrorResponse rid MCPErrorCode.InternalError
          ("Unknown step type: " ++ t) := by
  have hstep := stepDebugger_unknown w s t tid? hs ht
  refine ⟨by rw [hstep], ?_, ?_⟩
  · rw [hstep]
    exact resolveThreadId_log w tid?
  · have hargs : ({ emptyArgs with type := some t, threadId := tid? } : ToolArgs).type = some t :=
      rfl
    have hargs2 :
        ({ emptyArgs with type := some t, threadId := tid? } : ToolArgs).threadId = tid? := rfl
    rw [stepCall_response w rid { emptyArgs with type := some t, threadId := tid? },
      hargs, hargs2, hstep]

/-- C6 witness: the concrete scenario, a step_debugger call with type bogus
and id 1 against an active session, answered by the -32603 response carrying
Unknown step type: bogus. -/
theorem C6_unknown_step_type_rejected_witness :
    (DebuggerTools.stepDebugger activeWorld (some "bogus") none).1 =
      Except.error ("Unknown step type: " ++ "bogus")
    ∧ (∀ r ∈ (DebuggerTools.stepDebugger activeWorld (some "bogus") none).2,
        r = AdapterReq.threads)
    ∧ (MCPServer.handleRequest
         (mkToolCall (RequestId.num 1) "step_debugger"
           { emptyArgs with type := some "bogus", threadId := none }) activeWorld).1 =
        MCPServer.createErrorResponse (RequestId.num 1) MCPErrorCode.InternalError
          ("Unknown step type: " ++ "bogus") :=
  C6_unknown_step_type_rejected activeWorld stubSession "bogus" none (RequestId.num 1) rfl
    (by decide)

/-- Helper: every response out of handleToolsCall echoes the request id, and
exactly one of result/error is present. -/
lemma handleToolsCall_wf (req : MCPRequest) (w : World) :
    (MCPServer.handleToolsCall req w).1.id = req.id ∧
    (((MCPServer.handleToolsCall req w).1.result.isSome ∧
        (MCPServer.handleToolsCall req w).1.error = none) ∨
     ((MCPServer.handleToolsCall req w).1.result = none ∧
        (MCPServer.handleToolsCall req w).1.error.isSome)) := by
  unfold MCPServer.handleToolsCall
  dsimp only
  rcases hp : (req.params.getD emptyCallParams).name with _ | n
  · simp [MCPServer.createErrorResponse]
  · dsimp only
    by_cases hne : n = ""
    · simp [hne, MCPServer.createErrorResponse]
    · rw [if_neg hne]
      by_cases hfound : (MCPServer.tools.find? (fun t => t.name == n)).isNone
      · rw [if_pos hfound]
        simp [MCPServer.createErrorResponse]
      · rw [if_neg hfound]
        have hsome : (MCPServer.tools.find? (fun t => t.name == n)).isSome := by
          cases hx : MCPServer.tools.find? (fun t => t.name == n) with
          | none => exact absurd (by simp [hx]) hfound
          | some t => simp
        rcases toolName_of_found n hsome with rfl | rfl | rfl | rfl | rfl | rfl | rfl | rfl <;>
          (repeat' split) <;>
          simp [MCPServer.createErrorResponse, MCPServer.okContentResponse]

/-- Helper: once the tool name is present and registered, the call is
dispatched to exactly one DebuggerTools operation and the response is either
a success or an InternalError, never InvalidParams. -/
lemma handleToolsCall_found_code (req : MCPRequest) (w : World) (n : String)
    (hp : (req.params.getD emptyCallParams).name = some n) (hne : n ≠ "")
    (hsome : (MCPServer.tools.find? (fun t => t.name == n)).isSome) :
    ((MCPServer.handleToolsCall req w).1.error.map (fun e => e.code) = none ∨
     (MCPServer.handleToolsCall req w).1.error.map (fun e => e.code) = some (-32603))
    ∧ (MCPServer.handleToolsCall req w).2.2.length = 1 := by
  unfold MCPServer.handleToolsCall
  dsimp only
  rw [hp]
  dsimp only
  rw [if_neg hne]
  have hnone : (MCPServer.tools.find? (fun t => t.name == n)).isNone = false := by
    cases hx : MCPServer.tools.find? (fun t => t.name == n) with
    | none => rw [hx] at hsome; simp at hsome
    | some t => simp
  rw [if_neg (by simp [hnone])]
  rcases toolName_of_found n hsome with rfl | rfl | rfl | rfl | rfl | rfl | rfl | rfl <;>
    (repeat' split) <;>
    simp_all [MCPServer.createErrorResponse, MCPServer.okContentResponse,
      MCPErrorCode.InternalError]

/-- Helper: no branch of handleToolsCall emits MethodNotFound. -/
lemma handleToolsCall_no_32601 (req : MCPRequest) (w : World) :
    (MCPServer.handleToolsCall req w).1.error.map (fun e => e.code) ≠ some (-32601) := by
  rcases hp : (req.params.getD emptyCallParams).name with _ | n
  · unfold MCPServer.handleToolsCall
    dsimp only
    rw [hp]
    simp [MCPServer.createErrorResponse, MCPErrorCode.InvalidParams]
  · by_cases hne : n = ""
    · unfold MCPServer.handleToolsCall
      dsimp only
      rw [hp]
      dsimp only
      rw [if_pos hne]
      simp [MCPServer.createErrorResponse, MCPErrorCode.InvalidParams]
    · by_cases hfound : (MCPServer.tools.find? (fun t => t.name == n)).isSome
      · rcases (handleToolsCall_found_code req w n hp hne hfound).1 with hc | hc <;>
          rw [hc] <;> simp
      · have hnone : (MCPServer.tools.find? (fun t => t.name == n)).isNone = true := by
          cases hx : MCPServer.tools.find? (fun t => t.name == n) with
          | none => simp
          | some t => rw [hx] at hfound; simp at hfound
        unfold MCPServer.handleToolsCall
        dsimp only
        rw [hp]
        dsimp only
        rw [if_neg hne, if_pos hnone]
        simp [MCPServer.createErrorResponse, MCPErrorCode.InvalidParams]

/-- C1: every request handled by the router, including structurally invalid
ones, gets exactly one response; its id is the request id, and exactly one of
result/error is present. -/
theorem C1_exactly_one_response (req : MCPRequest) (w : World) :
    (MCPServer.handleRequest req w).1.id = req.id ∧
    (((MCPServer.handleRequest req w).1.result.isSome ∧
        (MCPServer.handleRequest req w).1.error = none) ∨
     ((MCPServer.handleRequest req w).1.result = none ∧
        (MCPServer.handleRequest req w).1.error.isSome)) := by
  unfold MCPServer.handleRequest
  by_cases h1 : req.jsonrpc ≠ "2.0"
  · rw [if_pos h1]
    simp [MCPServer.createErrorResponse]
  · rw [if_neg h1]
    by_cases h2 : req.method = ""
    · rw [if_pos h2]
      simp [MCPServer.createErrorResponse]
    · rw [if_neg h2]
      split
      · simp [MCPServer.handleInitialize]
      · simp [MCPServer.handleToolsList]
      · exact handleToolsCall_wf req w
      · simp [MCPServer.createErrorResponse]

/-- C10: a tools/call request can never be answered with MethodNotFound
(-32601): every name the registry lookup accepts has an implemented dispatch
case, so the not-implemented fallback is unreachable. -/
theorem C10_no_method_not_found_from_tools_call (req : MCPRequest) (w : World)
    (h : req.method = "tools/call") :
    (MCPServer.handleRequest req w).1.error.map (fun e => e.code) ≠ some (-32601) := by
  unfold MCPServer.handleRequest
  by_cases h1 : req.jsonrpc ≠ "2.0"
  · rw [if_pos h1]
    simp [MCPServer.createErrorResponse, MCPErrorCode.InvalidRequest]
  · rw [if_neg h1]
    rw [if_neg (by simp [h])]
    rw [h]
    exact handleToolsCall_no_32601 req w

/-- A set_breakpoint call whose arguments object is empty, missing the
required path and line fields. -/
def missingArgsCall : MCPRequest := mkToolCall (RequestId.num 1) "set_breakpoint" emptyArgs

/-- C10 witness at a concrete tools/call request. -/
theorem C10_no_method_not_found_from_tools_call_witness :
    (MCPServer.handleRequest missingArgsCall idleWorld).1.error.map (fun e => e.code) ≠
      some (-32601) :=
  C10_no_method_not_found_from_tools_call missingArgsCall idleWorld rfl

/-- C2 counterexample: set_breakpoint with empty arguments, although path
and line are declared required, is answered with InternalError (-32603), not
InvalidParams (-32602), and the facade operation is invoked anyway. -/
theorem C2_counterexample_no_invalid_params :
    (MCPServer.handleToolsCall missingArgsCall idleWorld).1.error.map (fun e => e.code) =
      some (-32603)
    ∧ (MCPServer.handleToolsCall missingArgsCall idleWorld).1.error.map (fun e => e.code) ≠
        some (-32602)
    ∧ (MCPServer.handleToolsCall missingArgsCall idleWorld).2.2 = [FacadeCall.setBreakpoint]
    ∧ (MCPServer.tools.find? (fun t => t.name == "set_breakpoint")).map
        (fun t => t.inputSchema.required) = some ["path", "line"] :=
  ⟨by decide, by decide, by decide, by decide⟩

/-- C2 (amended): the router validates only that the tool name is present
and registered; required argument fields are not checked, the call is
dispatched to the facade operation, and any failure surfaces as
InternalError (-32603), never InvalidParams. -/
theorem C2_amended_no_required_field_validation (req : MCPRequest) (w : World) (n : String)
    (hp : (req.params.getD emptyCallParams).name = some n) (hne : n ≠ "")
    (hfound : (MCPServer.tools.find? (fun t => t.name == n)).isSome) :
    ((MCPServer.handleToolsCall req w).1.error.map (fun e => e.code) = none ∨
     (MCPServer.handleToolsCall req w).1.error.map (fun e => e.code) = some (-32603))
    ∧ (MCPServer.handleToolsCall req w).2.2.length = 1 :=
  handleToolsCall_found_code req w n hp hne hfound

/-- C2 witness: the amended statement at the concrete empty-arguments
set_breakpoint call. -/
theorem C2_amended_no_required_field_validation_witness :
    ((MCPServer.handleToolsCall missingArgsCall idleWorld).1.error.map (fun e => e.code) = none ∨
     (MCPServer.handleToolsCall missingArgsCall idleWorld).1.error.map (fun e => e.code) =
       some (-32603))
    ∧ (MCPServer.handleToolsCall missingArgsCall idleWorld).2.2.length = 1 :=
  C2_amended_no_required_field_validation missingArgsCall idleWorld "set_breakpoint" rfl
    (by decide) (by decide)

/-- Helper: characterization of the broadcast fold: iterating over rest with
current set S removes exactly the failing visited listeners and delivers to
every non-failing visited listener, whatever came before. -/
lemma broadcast_foldl (data : MCPResponse) :
    ∀ (rest S : List Listener) (d : List (Nat × MCPResponse)),
      rest.foldl (SSEServer.broadcastStep data) (S, d) =
        (S.filter (fun x => !(x.writeFails && rest.contains x)),
         d ++ (rest.filter (fun c => !c.writeFails)).map (fun c => (c.id, data))) := by
  intro rest
  induction rest with
  | nil => intro S d; simp
  | cons c rest ih =>
    intro S d
    rw [List.foldl_cons]
    by_cases hc : c.writeFails
    · have hstep : SSEServer.broadcastStep data (S, d) c = (S.filter (fun x => x != c), d) := by
        simp [SSEServer.broadcastStep, hc]
      rw [hstep, ih, List.filter_filter]
      refine Prod.ext ?_ ?_
      · apply List.filter_congr
        intro x hx
        by_cases hxc : x = c
        · subst hxc
          simp [hc, List.contains_cons]
        · simp [hxc, List.contains_cons, bne_iff_ne]
      · simp [hc]
    · have hstep : SSEServer.broadcastStep data (S, d) c = (S, d ++ [(c.id, data)]) := by
        simp [SSEServer.broadcastStep, hc]
      rw [hstep, ih]
      refine Prod.ext ?_ ?_
      · apply List.filter_congr
        intro x hx
        by_cases hxc : x = c
        · subst hxc
          simp [hc]
        · simp [hxc, List.contains_cons]
      · simp [hc]

/-- C7: a broadcast write failure is contained per-listener: the failing
listeners are evicted, every non-failing listener still receives the data
(in order), and the originating POST reply is the router response with
status 200 regardless of listener failures. -/
theorem C7_broadcast_failure_contained (data : MCPResponse) (clients : List Listener)
    (req : MCPRequest) (w : World) :
    (SSEServer.broadcast data clients).1 = clients.filter (fun c => !c.writeFails)
    ∧ (SSEServer.broadcast data clients).2 =
        (clients.filter (fun c => !c.writeFails)).map (fun c => (c.id, data))
    ∧ (SSEServer.handlePost (Except.ok req) w clients).1.reply =
        (MCPServer.handleRequest req w).1
    ∧ (SSEServer.handlePost (Except.ok req) w clients).1.httpStatus = 200 := by
  have hb := broadcast_foldl data clients clients []
  have h1 : (SSEServer.broadcast data clients).1 = clients.filter (fun c => !c.writeFails) := by
    unfold SSEServer.broadcast
    rw [hb]
    apply List.filter_congr
    intro x hx
    simp [hx]
  have h2 : (SSEServer.broadcast data clients).2 =
      (clients.filter (fun c => !c.writeFails)).map (fun c => (c.id, data)) := by
    unfold SSEServer.broadcast
    rw [hb]
    simp
  exact ⟨h1, h2, rfl, rfl⟩

/-- Helper: the router outcome of a set_breakpoint call follows the
setBreakpoint outcome; the shaped result echoes the caller-provided path. -/
lemma setBpCall_outcome (w : World) (rid : RequestId) (a : ToolArgs) :
    MCPServer.handleToolsCall (mkToolCall rid "set_breakpoint" a) w =
      (match DebuggerTools.setBreakpoint w a.path a.line a.condition with
       | Except.error e =>
         (MCPServer.createErrorResponse rid MCPErrorCode.InternalError e, w,
          [FacadeCall.setBreakpoint])
       | Except.ok (w1, bp) =>
         (MCPServer.okContentResponse rid
            (ToolResult.breakpointInfo a.path (bp.line0 + 1) bp.enabled bp.condition), w1,
          [FacadeCall.setBreakpoint])) := by
  rfl

/-- Helper: the router outcome of a remove_breakpoint call follows the
removeBreakpoint outcome. -/
lemma removeBpCall_outcome (w : World) (rid : RequestId) (a : ToolArgs) :
    MCPServer.handleToolsCall (mkToolCall rid "remove_breakpoint" a) w =
      (match DebuggerTools.removeBreakpoint w a.path a.line with
       | Except.error e =>
         (MCPServer.createErrorResponse rid MCPErrorCode.InternalError e, w,
          [FacadeCall.removeBreakpoint])
       | Except.ok w1 =>
         (MCPServer.okContentResponse rid ToolResult.success, w1,
          [FacadeCall.removeBreakpoint])) := by
  rfl

/-- The breakpoint stored for path a.js line 10 in a workspace rooted at
/ws. -/
def wsBreakpoint : SourceBreakpoint :=
  { fsPath := "/ws/a.js", line0 := 9, enabled := true, condition := none }

/-- Helper: setting a.js line 10 under workspace root /ws appends exactly
that breakpoint. -/
lemma setBreakpoint_ws (w : World) (hf : w.workspaceFolders = ["/ws"]) :
    DebuggerTools.setBreakpoint w (some "a.js") (some 10) none =
      Except.ok ({ w with breakpoints := w.breakpoints ++ [wsBreakpoint] }, wsBreakpoint) := by
  unfold DebuggerTools.setBreakpoint DebuggerTools.resolveFilePath
  rw [hf]
  rfl

/-- The removal test for the a.js line 10 breakpoint under /ws. -/
def wsHit (bp : SourceBreakpoint) : Bool := bp.fsPath == "/ws/a.js" && bp.line0 == 9

/-- Helper: removing a.js line 10 under workspace root /ws filters exactly
the matching breakpoints out. -/
lemma removeBreakpoint_ws (w : World) (hf : w.workspaceFolders = ["/ws"]) :
    DebuggerTools.removeBreakpoint w (some "a.js") (some 10) =
      Except.ok { w with breakpoints := w.breakpoints.filter (fun bp => !(wsHit bp)) } := by
  unfold DebuggerTools.removeBreakpoint DebuggerTools.resolveFilePath
  rw [hf]
  rfl

/-- Helper: relativization of the stored path under the /ws root. -/
lemma getRelativePath_ws (v : World) (hff : v.workspaceFolders = ["/ws"]) :
    DebuggerTools.getRelativePath v "/ws/a.js" = "a.js" := by
  unfold DebuggerTools.getRelativePath
  rw [hff]
  rfl

/-- C8: round-trip: after a successful set_breakpoint at a.js line 10, the
next status snapshot lists a breakpoint at that path and line; after the
matching remove_breakpoint, no such entry remains (assuming no pre-existing
breakpoint displays as a.js line 10). -/
theorem C8_breakpoint_roundtrip (w : World) (rid1 rid2 : RequestId)
    (hf : w.workspaceFolders = ["/ws"])
    (hclean : ∀ bp ∈ w.breakpoints,
      ¬(DebuggerTools.getRelativePath w bp.fsPath = "a.js" ∧ bp.line0 + 1 = 10)) :
    (∃ b ∈ (DebuggerTools.getDebugStatus
        (MCPServer.handleToolsCall (mkToolCall rid1 "set_breakpoint" (bpArgs "a.js" 10))
          w).2.1).breakpoints,
      b.path = "a.js" ∧ b.line = 10)
    ∧ (∀ b ∈ (DebuggerTools.getDebugStatus
        (MCPServer.handleToolsCall (mkToolCall rid2 "remove_breakpoint" (bpArgs "a.js" 10))
          (MCPServer.handleToolsCall (mkToolCall rid1 "set_breakpoint" (bpArgs "a.js" 10))
            w).2.1).2.1).breakpoints,
      ¬(b.path = "a.js" ∧ b.line = 10)) := by
  have hw1 : (MCPServer.handleToolsCall (mkToolCall rid1 "set_breakpoint" (bpArgs "a.js" 10))
      w).2.1 = { w with breakpoints := w.breakpoints ++ [wsBreakpoint] } := by
    rw [setBpCall_outcome w rid1 (bpArgs "a.js" 10),
      show DebuggerTools.setBreakpoint w (bpArgs "a.js" 10).path (bpArgs "a.js" 10).line
          (bpArgs "a.js" 10).condition =
        Except.ok ({ w with breakpoints := w.breakpoints ++ [wsBreakpoint] }, wsBreakpoint) from
        setBreakpoint_ws w hf]
  rw [hw1]
  have hf1 : ({ w with breakpoints := w.breakpoints ++ [wsBreakpoint] } : World).workspaceFolders
      = ["/ws"] := hf
  constructor
  · rw [getDebugStatus_breakpoints]
    refine ⟨_, List.mem_map_of_mem _ (List.mem_append_right _ (List.mem_singleton_self _)), ?_, ?_⟩
    · exact getRelativePath_ws _ hf1
    · rfl
  · have hrem : (MCPServer.handleToolsCall (mkToolCall rid2 "remove_breakpoint" (bpArgs "a.js" 10))
        { w with breakpoints := w.breakpoints ++ [wsBreakpoint] }).2.1 =
        { w with breakpoints := (w.breakpoints ++ [wsBreakpoint]).filter (fun bp => !(wsHit bp)) } := by
      rw [removeBpCall_outcome _ rid2 (bpArgs "a.js" 10),
        show DebuggerTools.removeBreakpoint
            { w with breakpoints := w.breakpoints ++ [wsBreakpoint] } (bpArgs "a.js" 10).path
            (bpArgs "a.js" 10).line =
          Except.ok { w with
            breakpoints := (w.breakpoints ++ [wsBreakpoint]).filter (fun bp => !(wsHit bp)) } from
          removeBreakpoint_ws _ hf1]
    rw [hrem, getDebugStatus_breakpoints]
    intro b hb
    unfold statusBreakpoints at hb
    obtain ⟨bp, hbpmem, rfl⟩ := List.mem_map.mp hb
    rw [List.mem_filter] at hbpmem
    obtain ⟨hmem, hpred⟩ := hbpmem
    rcases List.mem_append.mp hmem with hold | hnew
    · rintro ⟨hpath, hline⟩
      refine hclean bp hold ⟨?_, hline⟩
      rw [← hpath]
      exact (getRelativePath_folders _ w rfl bp.fsPath).symm
    · rw [List.mem_singleton] at hnew
      subst hnew
      simp [wsBreakpoint, wsHit] at hpred

/-- C8 witness: the round-trip from the idle single-folder workspace. -/
theorem C8_breakpoint_roundtrip_witness :
    (∃ b ∈ (DebuggerTools.getDebugStatus
        (MCPServer.handleToolsCall (mkToolCall (RequestId.num 1) "set_breakpoint"
          (bpArgs "a.js" 10)) idleWorld).2.1).breakpoints,
      b.path = "a.js" ∧ b.line = 10)
    ∧ (∀ b ∈ (DebuggerTools.getDebugStatus
        (MCPServer.handleToolsCall (mkToolCall (RequestId.num 2) "remove_breakpoint"
          (bpArgs "a.js" 10))
          (MCPServer.handleToolsCall (mkToolCall (RequestId.num 1) "set_breakpoint"
            (bpArgs "a.js" 10)) idleWorld).2.1).2.1).breakpoints,
      ¬(b.path = "a.js" ∧ b.line = 10)) :=
  C8_breakpoint_roundtrip idleWorld (RequestId.num 1) (RequestId.num 2) rfl (by simp [idleWorld])

/-- Helper: setting a breakpoint at an absolute path stores that path
verbatim. -/
lemma setBreakpoint_abs (w : World) (p : String) (l : Int) (cond : Option String)
    (hp : isAbsolute p = true) :
    DebuggerTools.setBreakpoint w (some p) (some l) cond =
      Except.ok
        ({ w with breakpoints := w.breakpoints ++
            [{ fsPath := p, line0 := l - 1, enabled := true, condition := cond }] },
         { fsPath := p, line0 := l - 1, enabled := true, condition := cond }) := by
  unfold DebuggerTools.setBreakpoint DebuggerTools.resolveFilePath
  dsimp only
  rw [hp]
  rfl

/-- A set_breakpoint call that supplies an absolute path under the /ws
workspace root. -/
def absPathCall : MCPRequest :=
  mkToolCall (RequestId.num 3) "set_breakpoint"
    { emptyArgs with path := some "/ws/a.js", line := some 5 }

/-- C9 counterexample: a set_breakpoint call with the absolute path
/ws/a.js, which lies under the workspace root /ws, is answered with that
absolute path echoed verbatim in the result, although its workspace-relative
form is a.js. -/
theorem C9_counterexample_set_breakpoint_echoes_absolute :
    (MCPServer.handleToolsCall absPathCall idleWorld).1.result =
      some (ResValue.content (ToolResult.breakpointInfo (some "/ws/a.js") 5 true none))
    ∧ strStartsWith "/ws/a.js" "/ws" = true
    ∧ idleWorld.workspaceFolders = ["/ws"]
    ∧ DebuggerTools.getRelativePath idleWorld "/ws/a.js" = "a.js"
    ∧ ("/ws/a.js" : String) ≠ "a.js" :=
  ⟨by decide, by decide, by decide, by decide, by decide⟩

/-- C9 (amended): get_debug_status breakpoint paths and stack-frame source
paths are produced through getRelativePath, which leaves a path unchanged
when no workspace root is a string prefix of it; but the set_breakpoint
result echoes the caller-supplied path verbatim, not relativized. -/
theorem C9_amended_output_path_policy (w : World) (p q : String) (l : Int)
    (cond : Option String) (rid : RequestId)
    (hq : ∀ f ∈ w.workspaceFolders, strStartsWith q f = false)
    (hp : isAbsolute p = true) :
    ((DebuggerTools.getDebugStatus w).breakpoints.map (fun b => b.path) =
       w.breakpoints.map (fun bp => DebuggerTools.getRelativePath w bp.fsPath))
    ∧ DebuggerTools.getRelativePath w q = q
    ∧ (∀ (f : RawFrame) (src : RawSource) (sp : String), f.source = some src →
        src.path = some sp → sp ≠ "" →
        (mapStackFrame w f).source =
          some { path := some (DebuggerTools.getRelativePath w sp), name := src.name })
    ∧ (∀ (s : Session) (tr : Option (List Thread)) (frames : List RawFrame),
        w.activeDebugSession = some s → w.adapter.threadsResult = Except.ok tr →
        w.adapter.stackTraceResult (activeThreadIdOf tr) = Except.ok (some frames) →
        (DebuggerTools.getDebugStatus w).stackFrames = some (frames.map (mapStackFrame w)))
    ∧ (MCPServer.handleToolsCall (mkToolCall rid "set_breakpoint"
         { emptyArgs with path := some p, line := some l, condition := cond }) w).1.result =
        some (ResValue.content (ToolResult.breakpointInfo (some p) l true cond)) := by
  refine ⟨?_, ?_, ?_, ?_, ?_⟩
  · rw [getDebugStatus_breakpoints]
    simp [statusBreakpoints, List.map_map]
  · have hnone : w.workspaceFolders.find? (fun f => strStartsWith q f) = none :=
      List.find?_eq_none.mpr (fun x hx => by rw [hq x hx]; simp)
    unfold DebuggerTools.getRelativePath
    rw [hnone]
    split <;> rfl
  · intro f src sp h1 h2 h3
    simp [mapStackFrame, h1, h2, h3]
  · intro s tr frames hs ht hst
    rw [getDebugStatus_threadsOk w s tr hs ht]
    dsimp only
    rw [hst]
  · rw [setBpCall_outcome,
      show DebuggerTools.setBreakpoint w
          ({ emptyArgs with path := some p, line := some l, condition := cond } : ToolArgs).path
          ({ emptyArgs with path := some p, line := some l, condition := cond } : ToolArgs).line
          ({ emptyArgs with path := some p, line := some l, condition := cond } : ToolArgs).condition =
        Except.ok
          ({ w with breakpoints := w.breakpoints ++
              [{ fsPath := p, line0 := l - 1, enabled := true, condition := cond }] },
           { fsPath := p, line0 := l - 1, enabled := true, condition := cond }) from
        setBreakpoint_abs w p l cond hp]
    dsimp only
    rw [sub_add_cancel]
    rfl

/-- C9 witness: the amended policy at concrete inputs in the /ws
workspace. -/
theorem C9_amended_output_path_policy_witness :
    ((DebuggerTools.getDebugStatus idleWorld).breakpoints.map (fun b => b.path) =
       idleWorld.breakpoints.map (fun bp => DebuggerTools.getRelativePath idleWorld bp.fsPath))
    ∧ DebuggerTools.getRelativePath idleWorld "/other/c.js" = "/other/c.js"
    ∧ (∀ (f : RawFrame) (src : RawSource) (sp : String), f.source = some src →
        src.path = some sp → sp ≠ "" →
        (mapStackFrame idleWorld f).source =
          some { path := some (DebuggerTools.getRelativePath idleWorld sp), name := src.name })
    ∧ (∀ (s : Session) (tr : Option (List Thread)) (frames : List RawFrame),
        idleWorld.activeDebugSession = some s →
        idleWorld.adapter.threadsResult = Except.ok tr →
        idleWorld.adapter.stackTraceResult (activeThreadIdOf tr) = Except.ok (some frames) →
        (DebuggerTools.getDebugStatus idleWorld).stackFrames =
          some (frames.map (mapStackFrame idleWorld)))
    ∧ (MCPServer.handleToolsCall (mkToolCall (RequestId.num 4) "set_breakpoint"
         { emptyArgs with path := some "/elsewhere/b.js", line := some 3, condition := none })
         idleWorld).1.result =
        some (ResValue.content (ToolResult.breakpointInfo (some "/elsewhere/b.js") 3 true none)) :=
  C9_amended_output_path_policy idleWorld "/elsewhere/b.js" "/other/c.js" 3 none
    (RequestId.num 4) (by decide) (by decide)
